import Mathlib

/-!
Verification of the image post-processing pipeline in `src/main.py`
(`add_win11_status_bar_for_image`).

An image is modelled as a width, a height, and a pixel function over integer
coordinates (only coordinates `0 ≤ x < width`, `0 ≤ y < height` are
meaningful).  Library primitives of PIL that the script merely calls —
Gaussian blur, LANCZOS resampling, alpha compositing, TrueType font loading
and text rendering, and the filesystem — are abstract parameters; everything
the script itself computes (geometry arithmetic, crop boxes, paste positions,
loop structure, error handling) is translated directly.  Python's floor
division `//` is `Int.fdiv`.
-/

/-- RGBA pixel value. -/
abbrev Pixel := Nat × Nat × Nat × Nat

/-- Rectangular pixel buffer: `image.size` in PIL is `(width, height)`. -/
@[ext]
structure ImageVal where
  width : Nat
  height : Nat
  pix : Int → Int → Pixel

/-- PIL `image.copy()`: a new image with the same contents. -/
def ImageVal.copy (image : ImageVal) : ImageVal := image

/-- PIL `image.crop((left, upper, right, lower))`: the sub-rectangle, whose
pixel `(x, y)` is the original pixel `(x + left, y + upper)`. -/
def ImageVal.crop (image : ImageVal) (left upper right lower : Int) : ImageVal where
  width := (right - left).toNat
  height := (lower - upper).toNat
  pix := fun x y => image.pix (x + left) (y + upper)

/-- PIL `dst.paste(src, (x0, y0))` (equivalently a 4-tuple box whose size
matches `src`): pixels inside the pasted extent come from `src`, all others
are unchanged. -/
def ImageVal.paste (dst src : ImageVal) (x0 y0 : Int) : ImageVal where
  width := dst.width
  height := dst.height
  pix := fun x y =>
    if x0 ≤ x ∧ x < x0 + src.width ∧ y0 ≤ y ∧ y < y0 + src.height then
      src.pix (x - x0) (y - y0)
    else
      dst.pix x y

/-- PIL `dst.paste(src, (x0, y0), mask)` with `mask = src`: alpha compositing,
abstracted by a per-pixel blend function `comp dstPixel srcPixel`. -/
def ImageVal.pasteMask (dst src : ImageVal) (x0 y0 : Int)
    (comp : Pixel → Pixel → Pixel) : ImageVal where
  width := dst.width
  height := dst.height
  pix := fun x y =>
    if x0 ≤ x ∧ x < x0 + src.width ∧ y0 ≤ y ∧ y < y0 + src.height then
      comp (dst.pix x y) (src.pix (x - x0) (y - y0))
    else
      dst.pix x y

/-- Translation of `apply_bottom_blur` (src/main.py lines 6-27).
`gaussianBlur` abstracts `ImageFilter.GaussianBlur(radius)` applied via
`filter`. -/
def apply_bottom_blur (gaussianBlur : Int → ImageVal → ImageVal)
    (image : ImageVal) (blur_radius blur_height : Int) : ImageVal :=
  let width : Int := image.width
  let height : Int := image.height
  let bh : Int := if blur_height > height then height else blur_height
  let result := image.copy
  let bottom_part := image.crop 0 (height - bh) width height
  let blurred_bottom := gaussianBlur blur_radius bottom_part
  result.paste blurred_bottom 0 (height - bh)

/-- Result of the icon-overlay stage: the output image, the paste calls that
were performed (icon index and top-left position) in order, and the icon
paths whose loading failed (the diagnostics printed), in order. -/
structure IconsResult where
  img : ImageVal
  pastes : List (Nat × Int × Int)
  failures : List String

/-- Body of the `for i, icon_path in enumerate(icon_paths)` loop of
`add_icons_to_blur` (src/main.py lines 43-56): load (`loadIcon` abstracts
`Image.open(...).convert("RGBA")`, `none` modelling a raised exception),
resize (`resize` abstracts LANCZOS resampling to `icon_size × icon_size`),
compute the slot position, alpha-paste; on failure, record the diagnostic
and continue. -/
def icon_step (loadIcon : String → Option ImageVal)
    (resize : ImageVal → Int → Int → ImageVal) (comp : Pixel → Pixel → Pixel)
    (start_x blur_start_y blur_height icon_size spacing : Int)
    (acc : IconsResult) (i : Nat) (icon_path : String) : IconsResult :=
  match loadIcon icon_path with
  | some icon0 =>
    let icon := resize icon0 icon_size icon_size
    let icon_x := start_x + (i : Int) * (icon_size + spacing)
    let icon_y := blur_start_y + Int.fdiv (blur_height - icon_size) 2
    { img := acc.img.pasteMask icon icon_x icon_y comp
      pastes := acc.pastes ++ [(i, icon_x, icon_y)]
      failures := acc.failures }
  | none => { acc with failures := acc.failures ++ [icon_path] }

/-- The enumerated loop of `add_icons_to_blur`, with `i` the running index. -/
def icons_loop (loadIcon : String → Option ImageVal)
    (resize : ImageVal → Int → Int → ImageVal) (comp : Pixel → Pixel → Pixel)
    (start_x blur_start_y blur_height icon_size spacing : Int) :
    Nat → List String → IconsResult → IconsResult
  | _, [], acc => acc
  | i, p :: ps, acc =>
    icons_loop loadIcon resize comp start_x blur_start_y blur_height icon_size
      spacing (i + 1) ps
      (icon_step loadIcon resize comp start_x blur_start_y blur_height
        icon_size spacing acc i p)

/-- Translation of `add_icons_to_blur` (src/main.py lines 30-58). -/
def add_icons_to_blur (loadIcon : String → Option ImageVal)
    (resize : ImageVal → Int → Int → ImageVal) (comp : Pixel → Pixel → Pixel)
    (image : ImageVal) (icon_paths : List String)
    (blur_height icon_size spacing : Int) : IconsResult :=
  let width : Int := image.width
  let height : Int := image.height
  let blur_start_y := height - blur_height
  let draw_image := image.copy
  let total_icons_width : Int :=
    (icon_paths.length : Int) * icon_size
      + ((icon_paths.length : Int) - 1) * spacing
  let start_x := Int.fdiv (width - total_icons_width) 2
  icons_loop loadIcon resize comp start_x blur_start_y blur_height icon_size
    spacing 0 icon_paths ⟨draw_image, [], []⟩

/-- The icon-stage selection in `process_image` (src/main.py lines 122-128):
Python's `if icon_paths:` runs the stage only on a non-empty list. -/
def icon_stage_output (loadIcon : String → Option ImageVal)
    (resize : ImageVal → Int → Int → ImageVal) (comp : Pixel → Pixel → Pixel)
    (blurred_img : ImageVal) (icon_paths : List String)
    (blur_height icon_size spacing : Int) : ImageVal :=
  if icon_paths ≠ [] then
    (add_icons_to_blur loadIcon resize comp blurred_img icon_paths blur_height
      icon_size spacing).img
  else
    blurred_img

/-- Characterization of the paste calls `icons_loop` performs from running
index `i`: one call per successfully loaded path, at the slot position
computed from its index. Proof-support recursion, shown equal to the loop's
log below. -/
def icons_pastes_from (loadIcon : String → Option ImageVal)
    (start_x blur_start_y blur_height icon_size spacing : Int) :
    Nat → List String → List (Nat × Int × Int)
  | _, [] => []
  | i, p :: ps =>
    (match loadIcon p with
      | some _ => [(i, start_x + (i : Int) * (icon_size + spacing),
          blur_start_y + Int.fdiv (blur_height - icon_size) 2)]
      | none => []) ++
      icons_pastes_from loadIcon start_x blur_start_y blur_height icon_size
        spacing (i + 1) ps

/-- Concrete 10×10 test image used by witnesses. -/
def tImg : ImageVal := ⟨10, 10, fun _ _ => (5, 5, 5, 5)⟩

/-- Concrete 3×3 test icon used by witnesses. -/
def tIcon : ImageVal := ⟨3, 3, fun _ _ => (7, 7, 7, 7)⟩

/-- Concrete icon loader used by witnesses: fails exactly on `bad.png`. -/
def tLoad : String → Option ImageVal :=
  fun p => if p = "bad.png" then none else some tIcon

/-- Concrete resampler used by witnesses. -/
def tResize : ImageVal → Int → Int → ImageVal := fun icon _ _ => icon

/-- Concrete per-pixel compositor used by witnesses. -/
def tComp : Pixel → Pixel → Pixel := fun _ s => s

/-- TrueType font handle as the script uses it: the measured bounding box of
a text relative to a draw anchor (`draw.textbbox(anchor, text, font)`,
returning `(x0, y0, x1, y1)`) and the `font.getmetrics()` pair. -/
structure Font where
  textbbox : Int × Int → String → Int × Int × Int × Int
  ascent : Int
  descent : Int

/-- One `draw.text(position, text, font=font, fill=fill)` call. -/
structure DrawCall where
  pos : Int × Int
  text : String
  fill : Nat × Nat × Nat

/-- Translation of `add_time_to_blur` (src/main.py lines 61-101).
`truetype` abstracts `ImageFont.truetype` (`none` modelling a raised
exception) and `drawText` abstracts rasterization by `draw.text`; the draw
calls performed are also returned, in order.  The stage draws on its input
image rather than on a copy. -/
def add_time_to_blur (truetype : String → Int → Option Font)
    (drawText : ImageVal → Int × Int → String → Font → Nat × Nat × Nat → ImageVal)
    (image : ImageVal) (time_text : String)
    (blur_height font_size padding vertical_offset : Int) :
    Option (ImageVal × List DrawCall) :=
  let width : Int := image.width
  let height : Int := image.height
  let blur_start_y := height - blur_height
  let blur_center_y := blur_start_y + Int.fdiv blur_height 2
  match truetype "font/YaHei.ttf" font_size with
  | none => none
  | some font =>
    let bbox := font.textbbox (0, 0) time_text
    let text_width := bbox.2.2.1 - bbox.1
    let text_height := bbox.2.2.2 - bbox.2.1
    let ascent := font.ascent
    let text_center_y := ascent - Int.fdiv text_height 2
    let text_x := width - text_width - padding
    let text_y := blur_center_y - text_center_y + vertical_offset
    let outline_color : Nat × Nat × Nat := (0, 0, 0)
    let calls :=
      ([(-1, -1), (0, -1), (1, -1), (-1, 0), (1, 0), (-1, 1), (0, 1), (1, 1)] :
          List (Int × Int)).map
        (fun adj =>
          DrawCall.mk (text_x + adj.1, text_y + adj.2) time_text outline_color)
        ++ [DrawCall.mk (text_x, text_y) time_text (255, 255, 255)]
    some (calls.foldl (fun im c => drawText im c.pos c.text font c.fill) image,
      calls)

/-- Concrete font used by witnesses: bounding box `(1, 2, 11, 22)` for every
text (width 10, height 20), ascent 30, descent 7. -/
def tFont : Font := ⟨fun _ _ => (1, 2, 11, 22), 30, 7⟩

/-- Concrete font loader used by witnesses. -/
def tTruetype : String → Int → Option Font := fun _ _ => some tFont

/-- Concrete rasterizer used by witnesses. -/
def tDrawText : ImageVal → Int × Int → String → Font → Nat × Nat × Nat → ImageVal :=
  fun im _ _ _ _ => im

/-- Reference to an image object on the Python heap. -/
abbrev Ref := Nat

/-- Heap of image objects: references index into the list, allocation
appends. -/
abbrev Store := List ImageVal

/-- Image object held by a reference (meaningful only for allocated
references). -/
def Store.getRef (σ : Store) (r : Ref) : ImageVal :=
  (σ[r]?).getD ⟨0, 0, fun _ _ => (0, 0, 0, 0)⟩

/-- Object-level behaviour of `apply_bottom_blur`: `image.copy()` (line 18)
allocates a new object, the paste writes only to that copy, and the copy's
reference is returned; the argument object is never written. -/
def apply_bottom_blurS (gaussianBlur : Int → ImageVal → ImageVal)
    (σ : Store) (r : Ref) (blur_radius blur_height : Int) : Store × Ref :=
  (σ ++ [apply_bottom_blur gaussianBlur (σ.getRef r) blur_radius blur_height],
    σ.length)

/-- Object-level behaviour of `add_icons_to_blur`: `image.copy()` (line 36)
allocates `draw_image`, all pastes write to it, and its reference is
returned; the argument object is never written. -/
def add_icons_to_blurS (loadIcon : String → Option ImageVal)
    (resize : ImageVal → Int → Int → ImageVal) (comp : Pixel → Pixel → Pixel)
    (σ : Store) (r : Ref) (icon_paths : List String)
    (blur_height icon_size spacing : Int) : Store × Ref :=
  (σ ++ [(add_icons_to_blur loadIcon resize comp (σ.getRef r) icon_paths
    blur_height icon_size spacing).img], σ.length)

/-- Object-level behaviour of `add_time_to_blur`: `ImageDraw.Draw(image)`
(line 71) draws on the argument object itself and that same reference is
returned (`none` when the font fails to load). -/
def add_time_to_blurS (truetype : String → Int → Option Font)
    (drawText : ImageVal → Int × Int → String → Font → Nat × Nat × Nat → ImageVal)
    (σ : Store) (r : Ref) (time_text : String)
    (blur_height font_size padding vertical_offset : Int) :
    Option (Store × Ref) :=
  match add_time_to_blur truetype drawText (σ.getRef r) time_text blur_height
    font_size padding vertical_offset with
  | none => none
  | some (img, _) => some (σ.set r img, r)

/-- Library and filesystem primitives the per-file pipeline relies on;
`none` models a raised exception. -/
structure FileOps where
  openImage : String → Option ImageVal
  save : ImageVal → String → Option Unit
  gaussianBlur : Int → ImageVal → ImageVal
  loadIcon : String → Option ImageVal
  resize : ImageVal → Int → Int → ImageVal
  comp : Pixel → Pixel → Pixel
  truetype : String → Int → Option Font
  drawText : ImageVal → Int × Int → String → Font → Nat × Nat × Nat → ImageVal

/-- Body of the `try:` block of `process_image` (src/main.py lines 116-137):
open the image, blur the bottom band, add icons when the path list is
non-empty, add the time text (with the default `padding=50`,
`vertical_offset=0`), save.  `Except.error` is a raised exception. -/
def process_image_body (ops : FileOps) (input_path output_path : String)
    (icon_paths : List String) (time_text : String)
    (blur_radius blur_height icon_size spacing font_size : Int) :
    Except String ImageVal :=
  match ops.openImage input_path with
  | none => .error ("cannot open image " ++ input_path)
  | some img =>
    let blurred_img :=
      apply_bottom_blur ops.gaussianBlur img blur_radius blur_height
    let icon_img := icon_stage_output ops.loadIcon ops.resize ops.comp
      blurred_img icon_paths blur_height icon_size spacing
    match add_time_to_blur ops.truetype ops.drawText icon_img time_text
      blur_height font_size 50 0 with
    | none => .error "cannot load font font/YaHei.ttf"
    | some (final_img, _) =>
      match ops.save final_img output_path with
      | none => .error ("cannot save image " ++ output_path)
      | some _ => .ok final_img

/-- Translation of `process_image` (src/main.py lines 104-139): any exception
raised by the body is caught and logged; the call itself always returns
normally, with the log line it printed. -/
def process_image (ops : FileOps) (input_path output_path : String)
    (icon_paths : List String) (time_text : String)
    (blur_radius blur_height icon_size spacing font_size : Int) : String :=
  match process_image_body ops input_path output_path icon_paths time_text
    blur_radius blur_height icon_size spacing font_size with
  | .ok _ => "saved: " ++ output_path
  | .error e => "error: " ++ e

/-- Filesystem operations `main` uses; `listdir dir = none` models the
`OSError` that `os.listdir` raises when `dir` does not exist. -/
structure MainOps where
  splitext : String → String × String
  pathExists : String → Bool
  isDir : String → Bool
  listdir : String → Option (List String)

/-- Parsed command-line arguments of `main` (src/main.py lines 143-156). -/
structure Args where
  input : String
  output : Option String
  radius : Int
  height : Int
  iconsize : Int
  fontsize : Int
  spacing : Int
  time : String
  icons : String

/-- Output-path defaulting of `main` (src/main.py lines 159-161). -/
def resolve_output (mops : MainOps) (args : Args) : String :=
  match args.output with
  | some o => o
  | none =>
    (mops.splitext args.input).1 ++ "_enhanced" ++ (mops.splitext args.input).2

/-- Translation of `main` after argument parsing (src/main.py lines 158-203):
default the output path, check the input exists (reported, normal return),
enumerate the icon directory with no error handling, then run the per-file
loop (directory mode) or a single `process_image` call.  `Except.error` is
an uncaught exception aborting the program; `Except.ok` carries the log
line of every `process_image` call made. -/
def main_run (ops : FileOps) (mops : MainOps) (args : Args) :
    Except String (List String) :=
  let output := resolve_output mops args
  if mops.pathExists args.input = false then
    .ok ["missing input: " ++ args.input]
  else
    match mops.listdir args.icons with
    | none => .error ("listdir: " ++ args.icons)
    | some icon_names =>
      let icon_paths :=
        icon_names.map (fun filename => args.icons ++ "/" ++ filename)
      if mops.isDir args.input then
        match mops.listdir args.input with
        | none => .error ("listdir: " ++ args.input)
        | some filenames =>
          .ok (filenames.map (fun filename =>
            process_image ops (args.input ++ "/" ++ filename)
              (output ++ "/" ++ filename) icon_paths args.time args.radius
              args.height args.iconsize args.spacing args.fontsize))
      else
        .ok [process_image ops args.input output icon_paths args.time
          args.radius args.height args.iconsize args.spacing args.fontsize]

/-- Concrete per-file primitives used by witnesses: opening `d/bad.png`
fails, everything else succeeds. -/
def tFileOps : FileOps :=
  ⟨fun p => if p = "d/bad.png" then none else some tImg, fun _ _ => some (),
    fun _ i => i, tLoad, tResize, tComp, tTruetype, tDrawText⟩

/-- Concrete filesystem used by witnesses: input directory `d` holds
`good.png` and `bad.png`, icon directory `icons` holds `a.png`. -/
def tMainOps : MainOps :=
  ⟨fun s => (s, ""), fun _ => true, fun s => s = "d",
    fun s =>
      if s = "icons" then some ["a.png"]
      else if s = "d" then some ["good.png", "bad.png"] else none⟩

/-- Concrete filesystem used by witnesses in which no directory listing
succeeds (in particular the icon directory does not exist). -/
def tMainOpsNoIcons : MainOps :=
  ⟨fun s => (s, ""), fun _ => true, fun s => s = "d", fun _ => none⟩

/-- Concrete arguments used by witnesses. -/
def tArgs : Args := ⟨"d", some "out", 2, 5, 3, 9, 4, "13:14", "icons"⟩

/-- Cropping an image to its full extent gives the image back. -/
theorem crop_full (image : ImageVal) :
    image.crop 0 0 image.width image.height = image := by
  obtain ⟨w, h, p⟩ := image
  simp [ImageVal.crop]

/-- Claim C1: for every image and every band height not exceeding the image
height, the bottom-blur stage leaves every pixel strictly above the band
(every row `y < height - bandHeight`) identical to the input. -/
theorem blur_keeps_pixels_above_band (gaussianBlur : Int → ImageVal → ImageVal)
    (image : ImageVal) (blur_radius blur_height : Int)
    (hbh : blur_height ≤ (image.height : Int))
    (x y : Int) (hy : y < (image.height : Int) - blur_height) :
    (apply_bottom_blur gaussianBlur image blur_radius blur_height).pix x y
      = image.pix x y := by
  simp only [apply_bottom_blur, ImageVal.copy, ImageVal.paste,
    if_neg (not_lt.mpr hbh)]
  rw [if_neg]
  rintro ⟨-, -, h3, -⟩
  omega

/-- Witness for C1 on a concrete 4×4 image with band height 2. -/
theorem blur_keeps_pixels_above_band_witness :
    (2 : Int) ≤ ((ImageVal.mk 4 4 fun _ _ => (9, 9, 9, 9)).height : Int) ∧
      (1 : Int) < ((ImageVal.mk 4 4 fun _ _ => (9, 9, 9, 9)).height : Int) - 2 ∧
      (apply_bottom_blur (fun _ i => i)
          (ImageVal.mk 4 4 fun _ _ => (9, 9, 9, 9)) 100 2).pix 0 1
        = (ImageVal.mk 4 4 fun _ _ => (9, 9, 9, 9)).pix 0 1 :=
  ⟨by decide, by decide,
    blur_keeps_pixels_above_band (fun _ i => i)
      (ImageVal.mk 4 4 fun _ _ => (9, 9, 9, 9)) 100 2 (by decide) 0 1 (by decide)⟩

/-- Claim C5: if the requested band height exceeds the image height, the band
height is clamped to the image height (same result as requesting exactly the
image height) and the blur is applied to the whole image: the result is the
whole blurred image pasted at the origin, so every pixel inside the blurred
image's extent is a blurred pixel. -/
theorem blur_clamps_band_to_image (gaussianBlur : Int → ImageVal → ImageVal)
    (image : ImageVal) (blur_radius blur_height : Int)
    (hbh : (image.height : Int) < blur_height) :
    apply_bottom_blur gaussianBlur image blur_radius blur_height
        = apply_bottom_blur gaussianBlur image blur_radius image.height ∧
      apply_bottom_blur gaussianBlur image blur_radius blur_height
        = ImageVal.paste image.copy (gaussianBlur blur_radius image) 0 0 ∧
      ∀ x y : Int, 0 ≤ x →
        x < ((gaussianBlur blur_radius image).width : Int) → 0 ≤ y →
        y < ((gaussianBlur blur_radius image).height : Int) →
        (apply_bottom_blur gaussianBlur image blur_radius blur_height).pix x y
          = (gaussianBlur blur_radius image).pix x y := by
  have hfull :
      apply_bottom_blur gaussianBlur image blur_radius blur_height
        = ImageVal.paste image.copy (gaussianBlur blur_radius image) 0 0 := by
    simp only [apply_bottom_blur, if_pos hbh, sub_self, crop_full]
  refine ⟨?_, hfull, ?_⟩
  · rw [hfull]
    simp only [apply_bottom_blur, if_neg (lt_irrefl (image.height : Int)),
      sub_self, crop_full]
  · intro x y hx hxw hy hyh
    rw [hfull]
    simp only [ImageVal.paste, ImageVal.copy]
    rw [if_pos ⟨hx, by omega, hy, by omega⟩]
    simp

/-- Witness for C5 on a concrete 2×2 image with requested band height 5. -/
theorem blur_clamps_band_to_image_witness :
    (((ImageVal.mk 2 2 fun _ _ => (1, 1, 1, 1)).height : Int) < 5) ∧
      apply_bottom_blur (fun _ i => i)
          (ImageVal.mk 2 2 fun _ _ => (1, 1, 1, 1)) 3 5
        = apply_bottom_blur (fun _ i => i)
            (ImageVal.mk 2 2 fun _ _ => (1, 1, 1, 1)) 3
            (ImageVal.mk 2 2 fun _ _ => (1, 1, 1, 1)).height :=
  ⟨by decide,
    (blur_clamps_band_to_image (fun _ i => i)
      (ImageVal.mk 2 2 fun _ _ => (1, 1, 1, 1)) 3 5 (by decide)).1⟩

/-- The paste log of `icons_loop` is the initial log followed by the
characterized calls. -/
theorem icons_loop_pastes (loadIcon : String → Option ImageVal)
    (resize : ImageVal → Int → Int → ImageVal) (comp : Pixel → Pixel → Pixel)
    (sx by0 bh s g : Int) :
    ∀ (l : List String) (i : Nat) (acc : IconsResult),
    (icons_loop loadIcon resize comp sx by0 bh s g i l acc).pastes
      = acc.pastes ++ icons_pastes_from loadIcon sx by0 bh s g i l := by
  intro l
  induction l with
  | nil => intro i acc; simp [icons_loop, icons_pastes_from]
  | cons p ps ih =>
    intro i acc
    simp only [icons_loop, icons_pastes_from]
    rw [ih]
    cases hL : loadIcon p <;> simp [icon_step, hL]

/-- The failure log of `icons_loop` is the initial log followed by the paths
whose load failed, in order. -/
theorem icons_loop_failures (loadIcon : String → Option ImageVal)
    (resize : ImageVal → Int → Int → ImageVal) (comp : Pixel → Pixel → Pixel)
    (sx by0 bh s g : Int) :
    ∀ (l : List String) (i : Nat) (acc : IconsResult),
    (icons_loop loadIcon resize comp sx by0 bh s g i l acc).failures
      = acc.failures ++ l.filter (fun p => (loadIcon p).isNone) := by
  intro l
  induction l with
  | nil => intro i acc; simp [icons_loop]
  | cons p ps ih =>
    intro i acc
    simp only [icons_loop, List.filter_cons]
    rw [ih]
    cases hL : loadIcon p <;> simp [icon_step, hL]

/-- Every successfully loading index contributes its slot to the
characterized paste calls. -/
theorem mem_icons_pastes_from (loadIcon : String → Option ImageVal)
    (sx by0 bh s g : Int) :
    ∀ (l : List String) (i j : Nat) (pth : String) (ico : ImageVal),
    l[j]? = some pth → loadIcon pth = some ico →
    (i + j, sx + ((i + j : Nat) : Int) * (s + g),
      by0 + Int.fdiv (bh - s) 2) ∈ icons_pastes_from loadIcon sx by0 bh s g i l := by
  intro l
  induction l with
  | nil => intro i j pth ico hj; simp at hj
  | cons p ps ih =>
    intro i j pth ico hj hico
    cases j with
    | zero =>
      rw [List.getElem?_cons_zero] at hj
      obtain rfl : p = pth := by exact Option.some.inj hj
      simp [icons_pastes_from, hico]
    | succ j' =>
      rw [List.getElem?_cons_succ] at hj
      have hmem := ih (i + 1) j' pth ico hj hico
      simp only [icons_pastes_from]
      refine List.mem_append.mpr (Or.inr ?_)
      have he : i + (j' + 1) = (i + 1) + j' := by omega
      rw [he]
      exact hmem

/-- Any characterized paste call has the slot position of its index and
comes from a successfully loading path at that index. -/
theorem icons_pastes_from_spec (loadIcon : String → Option ImageVal)
    (sx by0 bh s g : Int) :
    ∀ (l : List String) (i k : Nat) (x y : Int),
    (k, x, y) ∈ icons_pastes_from loadIcon sx by0 bh s g i l →
    x = sx + (k : Int) * (s + g) ∧ y = by0 + Int.fdiv (bh - s) 2 ∧ i ≤ k ∧
      ∃ (pth : String) (ico : ImageVal),
        l[k - i]? = some pth ∧ loadIcon pth = some ico := by
  intro l
  induction l with
  | nil => intro i k x y h; simp [icons_pastes_from] at h
  | cons p ps ih =>
    intro i k x y h
    simp only [icons_pastes_from] at h
    rcases List.mem_append.mp h with h1 | h2
    · cases hL : loadIcon p with
      | none => rw [hL] at h1; simp at h1
      | some ico =>
        rw [hL] at h1
        simp only [List.mem_singleton, Prod.mk.injEq] at h1
        obtain ⟨rfl, rfl, rfl⟩ := h1
        exact ⟨rfl, rfl, le_refl k, p, ico, by simp, hL⟩
    · obtain ⟨hx, hy, hik, pth, ico, hpth, hico⟩ := ih (i + 1) k x y h2
      refine ⟨hx, hy, by omega, pth, ico, ?_, hico⟩
      have he : k - i = (k - (i + 1)) + 1 := by omega
      rw [he, List.getElem?_cons_succ]
      exact hpth

/-- Claim C2: the icon-overlay stage pastes the icon at index `i` at
`x = ⌊(W - (N*s + (N-1)*g)) / 2⌋ + i*(s + g)` and
`y = (height - bandHeight) + ⌊(bandHeight - s) / 2⌋`; at `i = 0` the leftmost
icon's left edge is `⌊(W - (N*s + (N-1)*g)) / 2⌋`. -/
theorem icon_slot_positions (loadIcon : String → Option ImageVal)
    (resize : ImageVal → Int → Int → ImageVal) (comp : Pixel → Pixel → Pixel)
    (image : ImageVal) (icon_paths : List String) (bh s g : Int)
    (i : Nat) (pth : String) (ico : ImageVal)
    (hi : icon_paths[i]? = some pth) (hload : loadIcon pth = some ico) :
    (i,
      Int.fdiv ((image.width : Int)
        - ((icon_paths.length : Int) * s + ((icon_paths.length : Int) - 1) * g)) 2
        + (i : Int) * (s + g),
      ((image.height : Int) - bh) + Int.fdiv (bh - s) 2)
      ∈ (add_icons_to_blur loadIcon resize comp image icon_paths bh s g).pastes := by
  simp only [add_icons_to_blur]
  rw [icons_loop_pastes]
  have hmem := mem_icons_pastes_from loadIcon
    (Int.fdiv ((image.width : Int)
      - ((icon_paths.length : Int) * s + ((icon_paths.length : Int) - 1) * g)) 2)
    ((image.height : Int) - bh) bh s g icon_paths 0 i pth ico hi hload
  simpa using hmem

/-- Witness for C2: two icons of size 3 with spacing 4 on the 10×10 test
image, looking at index 1. -/
theorem icon_slot_positions_witness :
    (["a.png", "b.png"] : List String)[1]? = some "b.png" ∧
      tLoad "b.png" = some tIcon ∧
      ((1 : Nat),
        Int.fdiv ((tImg.width : Int)
          - (((["a.png", "b.png"] : List String).length : Int) * 3
            + (((["a.png", "b.png"] : List String).length : Int) - 1) * 4)) 2
          + ((1 : Nat) : Int) * (3 + 4),
        ((tImg.height : Int) - 5) + Int.fdiv (5 - 3) 2)
        ∈ (add_icons_to_blur tLoad tResize tComp tImg
            ["a.png", "b.png"] 5 3 4).pastes :=
  ⟨rfl, rfl,
    icon_slot_positions tLoad tResize tComp tImg ["a.png", "b.png"] 5 3 4 1
      "b.png" tIcon rfl rfl⟩

/-- Claim C3: if the icon at index `i` fails to load, it is skipped with a
diagnostic (its path is recorded in the failure log, and no paste happens at
index `i`), while any other index `j` that loads is still pasted at its
pre-computed slot `x = startX + j*(s + g)` — slots are not re-flowed. -/
theorem icon_failure_skipped_without_reflow
    (loadIcon : String → Option ImageVal)
    (resize : ImageVal → Int → Int → ImageVal) (comp : Pixel → Pixel → Pixel)
    (image : ImageVal) (icon_paths : List String) (bh s g : Int)
    (i j : Nat) (pthi pthj : String) (ico : ImageVal) (_hne : j ≠ i)
    (hi : icon_paths[i]? = some pthi) (hfail : loadIcon pthi = none)
    (hj : icon_paths[j]? = some pthj) (hok : loadIcon pthj = some ico) :
    pthi ∈ (add_icons_to_blur loadIcon resize comp image icon_paths
        bh s g).failures ∧
      (∀ x y : Int, (i, x, y) ∉ (add_icons_to_blur loadIcon resize comp image
        icon_paths bh s g).pastes) ∧
      (j,
        Int.fdiv ((image.width : Int)
          - ((icon_paths.length : Int) * s
            + ((icon_paths.length : Int) - 1) * g)) 2
          + (j : Int) * (s + g),
        ((image.height : Int) - bh) + Int.fdiv (bh - s) 2)
        ∈ (add_icons_to_blur loadIcon resize comp image icon_paths
            bh s g).pastes := by
  refine ⟨?_, ?_, ?_⟩
  · simp only [add_icons_to_blur]
    rw [icons_loop_failures]
    simp only [List.nil_append]
    exact List.mem_filter.mpr ⟨List.getElem?_mem hi, by simp [hfail]⟩
  · intro x y hmem
    simp only [add_icons_to_blur] at hmem
    rw [icons_loop_pastes] at hmem
    simp only [List.nil_append] at hmem
    obtain ⟨-, -, -, pth, ico', hpth, hico'⟩ :=
      icons_pastes_from_spec loadIcon _ _ _ _ _ icon_paths 0 i x y hmem
    rw [Nat.sub_zero, hi] at hpth
    obtain rfl := Option.some.inj hpth
    rw [hfail] at hico'
    exact Option.noConfusion hico'
  · exact icon_slot_positions loadIcon resize comp image icon_paths bh s g j
      pthj ico hj hok

/-- Witness for C3: among `["ok.png", "bad.png"]`, index 1 fails to load and
index 0 still lands on its pre-computed slot. -/
theorem icon_failure_skipped_without_reflow_witness :
    ((0 : Nat) ≠ (1 : Nat)) ∧
      (["ok.png", "bad.png"] : List String)[1]? = some "bad.png" ∧
      tLoad "bad.png" = none ∧
      (["ok.png", "bad.png"] : List String)[0]? = some "ok.png" ∧
      tLoad "ok.png" = some tIcon ∧
      "bad.png" ∈ (add_icons_to_blur tLoad tResize tComp tImg
        ["ok.png", "bad.png"] 5 3 4).failures ∧
      (∀ x y : Int, (1, x, y) ∉ (add_icons_to_blur tLoad tResize tComp tImg
        ["ok.png", "bad.png"] 5 3 4).pastes) ∧
      ((0 : Nat),
        Int.fdiv ((tImg.width : Int)
          - (((["ok.png", "bad.png"] : List String).length : Int) * 3
            + (((["ok.png", "bad.png"] : List String).length : Int) - 1) * 4)) 2
          + ((0 : Nat) : Int) * (3 + 4),
        ((tImg.height : Int) - 5) + Int.fdiv (5 - 3) 2)
        ∈ (add_icons_to_blur tLoad tResize tComp tImg
            ["ok.png", "bad.png"] 5 3 4).pastes := by
  have h := icon_failure_skipped_without_reflow tLoad tResize tComp tImg
    ["ok.png", "bad.png"] 5 3 4 1 0 "bad.png" "ok.png" tIcon
    (by decide) rfl rfl rfl rfl
  exact ⟨by decide, rfl, rfl, rfl, rfl, h.1, h.2.1, h.2.2⟩

/-- Claim C7: with an empty icon path list the icon stage is skipped and the
image handed to the time-overlay stage is exactly the bottom-blur stage's
output. -/
theorem empty_icon_list_passes_blur_through
    (loadIcon : String → Option ImageVal)
    (resize : ImageVal → Int → Int → ImageVal) (comp : Pixel → Pixel → Pixel)
    (gaussianBlur : Int → ImageVal → ImageVal) (image : ImageVal)
    (blur_radius bh s g : Int) (icon_paths : List String)
    (h : icon_paths = []) :
    icon_stage_output loadIcon resize comp
        (apply_bottom_blur gaussianBlur image blur_radius bh) icon_paths bh s g
      = apply_bottom_blur gaussianBlur image blur_radius bh := by
  subst h
  simp [icon_stage_output]

/-- Witness for C7 at a concrete configuration with no icons. -/
theorem empty_icon_list_passes_blur_through_witness :
    ([] : List String) = [] ∧
      icon_stage_output tLoad tResize tComp
          (apply_bottom_blur (fun _ i => i) tImg 2 5) [] 5 3 4
        = apply_bottom_blur (fun _ i => i) tImg 2 5 :=
  ⟨rfl, empty_icon_list_passes_blur_through tLoad tResize tComp
    (fun _ i => i) tImg 2 5 3 4 [] rfl⟩

/-- Claim C6: the time-overlay stage draws the text exactly 9 times: first 8
times in solid black at the one-pixel compass offsets (-1,-1), (0,-1),
(1,-1), (-1,0), (1,0), (-1,1), (0,1), (1,1) from the target position, then
once in solid white (255, 255, 255) at the exact target position, in that
order. -/
theorem time_overlay_draw_sequence (truetype : String → Int → Option Font)
    (drawText : ImageVal → Int × Int → String → Font → Nat × Nat × Nat → ImageVal)
    (image : ImageVal) (time_text : String) (bh fs pad voff : Int)
    (font : Font) (hfont : truetype "font/YaHei.ttf" fs = some font) :
    ∃ tx ty : Int,
      tx = (image.width : Int)
          - ((font.textbbox (0, 0) time_text).2.2.1
            - (font.textbbox (0, 0) time_text).1) - pad ∧
      ty = ((image.height : Int) - bh) + Int.fdiv bh 2
          - (font.ascent
            - Int.fdiv ((font.textbbox (0, 0) time_text).2.2.2
              - (font.textbbox (0, 0) time_text).2.1) 2) + voff ∧
      (add_time_to_blur truetype drawText image time_text bh fs pad voff).map
          Prod.snd
        = some
          [⟨(tx - 1, ty - 1), time_text, (0, 0, 0)⟩,
           ⟨(tx, ty - 1), time_text, (0, 0, 0)⟩,
           ⟨(tx + 1, ty - 1), time_text, (0, 0, 0)⟩,
           ⟨(tx - 1, ty), time_text, (0, 0, 0)⟩,
           ⟨(tx + 1, ty), time_text, (0, 0, 0)⟩,
           ⟨(tx - 1, ty + 1), time_text, (0, 0, 0)⟩,
           ⟨(tx, ty + 1), time_text, (0, 0, 0)⟩,
           ⟨(tx + 1, ty + 1), time_text, (0, 0, 0)⟩,
           ⟨(tx, ty), time_text, (255, 255, 255)⟩] := by
  refine ⟨_, _, rfl, rfl, ?_⟩
  simp only [add_time_to_blur, hfont, List.map, Option.map_some]
  norm_num [sub_eq_add_neg]

/-- Witness for C6 at a concrete font and 10×10 image. -/
theorem time_overlay_draw_sequence_witness :
    tTruetype "font/YaHei.ttf" 9 = some tFont ∧
      ∃ tx ty : Int,
        tx = (tImg.width : Int)
            - ((tFont.textbbox (0, 0) "13:14").2.2.1
              - (tFont.textbbox (0, 0) "13:14").1) - 6 ∧
        ty = ((tImg.height : Int) - 5) + Int.fdiv 5 2
            - (tFont.ascent
              - Int.fdiv ((tFont.textbbox (0, 0) "13:14").2.2.2
                - (tFont.textbbox (0, 0) "13:14").2.1) 2) + 0 ∧
        (add_time_to_blur tTruetype tDrawText tImg "13:14" 5 9 6 0).map
            Prod.snd
          = some
            [⟨(tx - 1, ty - 1), "13:14", (0, 0, 0)⟩,
             ⟨(tx, ty - 1), "13:14", (0, 0, 0)⟩,
             ⟨(tx + 1, ty - 1), "13:14", (0, 0, 0)⟩,
             ⟨(tx - 1, ty), "13:14", (0, 0, 0)⟩,
             ⟨(tx + 1, ty), "13:14", (0, 0, 0)⟩,
             ⟨(tx - 1, ty + 1), "13:14", (0, 0, 0)⟩,
             ⟨(tx, ty + 1), "13:14", (0, 0, 0)⟩,
             ⟨(tx + 1, ty + 1), "13:14", (0, 0, 0)⟩,
             ⟨(tx, ty), "13:14", (255, 255, 255)⟩] :=
  ⟨rfl, time_overlay_draw_sequence tTruetype tDrawText tImg "13:14" 5 9 6 0
    tFont rfl⟩

/-- Claim C4: the final white draw happens at anchor
`x = imageWidth - textWidth - padding` (so `x + textWidth` is exactly
`padding` pixels left of the image's right edge) and
`y = bandStartY + ⌊bandHeight/2⌋ - (ascent - ⌊textHeight/2⌋) + verticalOffset`,
with `textWidth`/`textHeight` the measured bounding-box dimensions and
`ascent` the font's ascent metric. -/
theorem time_text_anchor (truetype : String → Int → Option Font)
    (drawText : ImageVal → Int × Int → String → Font → Nat × Nat × Nat → ImageVal)
    (image : ImageVal) (time_text : String) (bh fs pad voff : Int)
    (font : Font) (hfont : truetype "font/YaHei.ttf" fs = some font) :
    (add_time_to_blur truetype drawText image time_text bh fs pad voff).bind
        (fun r => r.2.getLast?)
      = some ⟨((image.width : Int)
            - ((font.textbbox (0, 0) time_text).2.2.1
              - (font.textbbox (0, 0) time_text).1) - pad,
          ((image.height : Int) - bh) + Int.fdiv bh 2
            - (font.ascent
              - Int.fdiv ((font.textbbox (0, 0) time_text).2.2.2
                - (font.textbbox (0, 0) time_text).2.1) 2) + voff),
          time_text, (255, 255, 255)⟩ ∧
      ((image.width : Int)
          - ((font.textbbox (0, 0) time_text).2.2.1
            - (font.textbbox (0, 0) time_text).1) - pad)
          + ((font.textbbox (0, 0) time_text).2.2.1
            - (font.textbbox (0, 0) time_text).1)
        = (image.width : Int) - pad := by
  constructor
  · simp only [add_time_to_blur, hfont, Option.some_bind]
    exact List.getLast?_concat _
  · ring

/-- Witness for C4 at a concrete font and 10×10 image. -/
theorem time_text_anchor_witness :
    tTruetype "font/YaHei.ttf" 9 = some tFont ∧
      ((add_time_to_blur tTruetype tDrawText tImg "13:14" 5 9 6 0).bind
          (fun r => r.2.getLast?)
        = some ⟨((tImg.width : Int)
              - ((tFont.textbbox (0, 0) "13:14").2.2.1
                - (tFont.textbbox (0, 0) "13:14").1) - 6,
            ((tImg.height : Int) - 5) + Int.fdiv 5 2
              - (tFont.ascent
                - Int.fdiv ((tFont.textbbox (0, 0) "13:14").2.2.2
                  - (tFont.textbbox (0, 0) "13:14").2.1) 2) + 0),
            "13:14", (255, 255, 255)⟩ ∧
        ((tImg.width : Int)
            - ((tFont.textbbox (0, 0) "13:14").2.2.1
              - (tFont.textbbox (0, 0) "13:14").1) - 6)
            + ((tFont.textbbox (0, 0) "13:14").2.2.1
              - (tFont.textbbox (0, 0) "13:14").1)
          = (tImg.width : Int) - 6) :=
  ⟨rfl, time_text_anchor tTruetype tDrawText tImg "13:14" 5 9 6 0 tFont rfl⟩

/-- Claim C8: the bottom-blur and icon-overlay stages leave the argument
image object unchanged and return a fresh newly-allocated copy, while the
time-overlay stage draws on the argument object in place and returns that
same object. -/
theorem stage_object_behaviour (gaussianBlur : Int → ImageVal → ImageVal)
    (loadIcon : String → Option ImageVal)
    (resize : ImageVal → Int → Int → ImageVal) (comp : Pixel → Pixel → Pixel)
    (truetype : String → Int → Option Font)
    (drawText : ImageVal → Int × Int → String → Font → Nat × Nat × Nat → ImageVal)
    (σ : Store) (r : Ref) (icon_paths : List String) (time_text : String)
    (blur_radius blur_height icon_size spacing font_size padding
      vertical_offset : Int)
    (font : Font) (hfont : truetype "font/YaHei.ttf" font_size = some font)
    (hr : r < σ.length) :
    ((apply_bottom_blurS gaussianBlur σ r blur_radius blur_height).2 ≠ r ∧
      (apply_bottom_blurS gaussianBlur σ r blur_radius blur_height).1.getRef r
        = σ.getRef r ∧
      (apply_bottom_blurS gaussianBlur σ r blur_radius blur_height).1.getRef
          (apply_bottom_blurS gaussianBlur σ r blur_radius blur_height).2
        = apply_bottom_blur gaussianBlur (σ.getRef r) blur_radius
            blur_height) ∧
    ((add_icons_to_blurS loadIcon resize comp σ r icon_paths blur_height
        icon_size spacing).2 ≠ r ∧
      (add_icons_to_blurS loadIcon resize comp σ r icon_paths blur_height
        icon_size spacing).1.getRef r = σ.getRef r ∧
      (add_icons_to_blurS loadIcon resize comp σ r icon_paths blur_height
        icon_size spacing).1.getRef
          (add_icons_to_blurS loadIcon resize comp σ r icon_paths blur_height
            icon_size spacing).2
        = (add_icons_to_blur loadIcon resize comp (σ.getRef r) icon_paths
            blur_height icon_size spacing).img) ∧
    (∃ img : ImageVal,
      add_time_to_blurS truetype drawText σ r time_text blur_height font_size
          padding vertical_offset
        = some (σ.set r img, r) ∧
      Store.getRef (σ.set r img) r = img) := by
  refine ⟨⟨Nat.ne_of_gt hr, ?_, ?_⟩, ⟨Nat.ne_of_gt hr, ?_, ?_⟩, ?_⟩
  · simp [apply_bottom_blurS, Store.getRef, List.getElem?_append_left hr]
  · simp [apply_bottom_blurS, Store.getRef, List.getElem?_concat_length]
  · simp [add_icons_to_blurS, Store.getRef, List.getElem?_append_left hr]
  · simp [add_icons_to_blurS, Store.getRef, List.getElem?_concat_length]
  · cases hA : add_time_to_blur truetype drawText (σ.getRef r) time_text
      blur_height font_size padding vertical_offset with
    | none => rw [add_time_to_blur, hfont] at hA; exact Option.noConfusion hA
    | some v =>
      refine ⟨v.1, ?_, ?_⟩
      · simp [add_time_to_blurS, hA]
      · simp [Store.getRef, List.getElem?_set_self hr]

/-- Witness for C8 on a one-object store. -/
theorem stage_object_behaviour_witness :
    tTruetype "font/YaHei.ttf" 9 = some tFont ∧ (0 : Nat) < [tImg].length ∧
      (((apply_bottom_blurS (fun _ i => i) [tImg] 0 2 5).2 ≠ 0 ∧
        (apply_bottom_blurS (fun _ i => i) [tImg] 0 2 5).1.getRef 0
          = Store.getRef [tImg] 0 ∧
        (apply_bottom_blurS (fun _ i => i) [tImg] 0 2 5).1.getRef
            (apply_bottom_blurS (fun _ i => i) [tImg] 0 2 5).2
          = apply_bottom_blur (fun _ i => i) (Store.getRef [tImg] 0) 2 5) ∧
      ((add_icons_to_blurS tLoad tResize tComp [tImg] 0 ["ok.png"] 5 3 4).2
          ≠ 0 ∧
        (add_icons_to_blurS tLoad tResize tComp [tImg] 0 ["ok.png"] 5 3
          4).1.getRef 0 = Store.getRef [tImg] 0 ∧
        (add_icons_to_blurS tLoad tResize tComp [tImg] 0 ["ok.png"] 5 3
          4).1.getRef
            (add_icons_to_blurS tLoad tResize tComp [tImg] 0 ["ok.png"] 5 3
              4).2
          = (add_icons_to_blur tLoad tResize tComp (Store.getRef [tImg] 0)
              ["ok.png"] 5 3 4).img) ∧
      (∃ img : ImageVal,
        add_time_to_blurS tTruetype tDrawText [tImg] 0 "13:14" 5 9 6 0
          = some (([tImg] : Store).set 0 img, 0) ∧
        Store.getRef (([tImg] : Store).set 0 img) 0 = img)) :=
  ⟨rfl, by decide,
    stage_object_behaviour (fun _ i => i) tLoad tResize tComp tTruetype
      tDrawText [tImg] 0 ["ok.png"] "13:14" 2 5 3 4 9 6 0 tFont rfl
      (by decide)⟩

/-- Claim C9: in directory mode the orchestrator calls `process_image` once
per enumerated file and `process_image` returns a log line for every file
(failures of its body are caught inside it and logged), so even when the
body fails for some file the batch result has one entry per file — the
failing file's entry being the caught error's log line — and no exception
reaches `main`. -/
theorem per_file_failure_does_not_abort_batch (ops : FileOps)
    (mops : MainOps) (args : Args) (filenames icon_names : List String)
    (hex : mops.pathExists args.input = true)
    (hdir : mops.isDir args.input = true)
    (hicons : mops.listdir args.icons = some icon_names)
    (hfiles : mops.listdir args.input = some filenames)
    (k : Nat) (fk : String) (hk : filenames[k]? = some fk) (e : String)
    (hfail : process_image_body ops (args.input ++ "/" ++ fk)
        (resolve_output mops args ++ "/" ++ fk)
        (icon_names.map (fun filename => args.icons ++ "/" ++ filename))
        args.time args.radius args.height args.iconsize args.spacing
        args.fontsize = .error e) :
    main_run ops mops args
        = .ok (filenames.map (fun filename =>
            process_image ops (args.input ++ "/" ++ filename)
              (resolve_output mops args ++ "/" ++ filename)
              (icon_names.map (fun fn2 => args.icons ++ "/" ++ fn2))
              args.time args.radius args.height args.iconsize args.spacing
              args.fontsize)) ∧
      (filenames.map (fun filename =>
          process_image ops (args.input ++ "/" ++ filename)
            (resolve_output mops args ++ "/" ++ filename)
            (icon_names.map (fun fn2 => args.icons ++ "/" ++ fn2))
            args.time args.radius args.height args.iconsize args.spacing
            args.fontsize))[k]?
        = some ("error: " ++ e) := by
  constructor
  · simp [main_run, hex, hicons, hdir, hfiles]
  · rw [List.getElem?_map, hk]
    simp [process_image, hfail]

/-- Witness for C9: directory `d` with `good.png` and unreadable `bad.png`;
both files get a log entry, `bad.png`'s being the caught error. -/
theorem per_file_failure_does_not_abort_batch_witness :
    tMainOps.pathExists tArgs.input = true ∧
      tMainOps.isDir tArgs.input = true ∧
      tMainOps.listdir tArgs.icons = some ["a.png"] ∧
      tMainOps.listdir tArgs.input = some ["good.png", "bad.png"] ∧
      (["good.png", "bad.png"] : List String)[1]? = some "bad.png" ∧
      process_image_body tFileOps (tArgs.input ++ "/" ++ "bad.png")
          (resolve_output tMainOps tArgs ++ "/" ++ "bad.png")
          ((["a.png"] : List String).map
            (fun filename => tArgs.icons ++ "/" ++ filename))
          tArgs.time tArgs.radius tArgs.height tArgs.iconsize tArgs.spacing
          tArgs.fontsize
        = .error "cannot open image d/bad.png" ∧
      main_run tFileOps tMainOps tArgs
        = .ok ((["good.png", "bad.png"] : List String).map (fun filename =>
            process_image tFileOps (tArgs.input ++ "/" ++ filename)
              (resolve_output tMainOps tArgs ++ "/" ++ filename)
              ((["a.png"] : List String).map
                (fun fn2 => tArgs.icons ++ "/" ++ fn2))
              tArgs.time tArgs.radius tArgs.height tArgs.iconsize
              tArgs.spacing tArgs.fontsize)) ∧
      ((["good.png", "bad.png"] : List String).map (fun filename =>
          process_image tFileOps (tArgs.input ++ "/" ++ filename)
            (resolve_output tMainOps tArgs ++ "/" ++ filename)
            ((["a.png"] : List String).map
              (fun fn2 => tArgs.icons ++ "/" ++ fn2))
            tArgs.time tArgs.radius tArgs.height tArgs.iconsize tArgs.spacing
            tArgs.fontsize))[1]?
        = some ("error: " ++ "cannot open image d/bad.png") := by
  have h := per_file_failure_does_not_abort_batch tFileOps tMainOps tArgs
    ["good.png", "bad.png"] ["a.png"] rfl rfl rfl rfl 1 "bad.png" rfl
    "cannot open image d/bad.png" rfl
  exact ⟨rfl, rfl, rfl, rfl, rfl, rfl, h.1, h.2⟩

/-- Claim C10: `main` enumerates the icon directory before any image is
processed and without any error handling, so when the icon directory does
not exist the program dies with an uncaught exception — even though the
input path exists — and no file is processed (no `process_image` log is
produced). -/
theorem missing_icon_dir_aborts_run (ops : FileOps) (mops : MainOps)
    (args : Args) (hex : mops.pathExists args.input = true)
    (hmiss : mops.listdir args.icons = none) :
    main_run ops mops args = .error ("listdir: " ++ args.icons) := by
  simp [main_run, hex, hmiss]

/-- Witness for C10: the icon directory listing fails while the input
exists. -/
theorem missing_icon_dir_aborts_run_witness :
    tMainOpsNoIcons.pathExists tArgs.input = true ∧
      tMainOpsNoIcons.listdir tArgs.icons = none ∧
      main_run tFileOps tMainOpsNoIcons tArgs
        = .error ("listdir: " ++ tArgs.icons) :=
  ⟨rfl, rfl, missing_icon_dir_aborts_run tFileOps tMainOpsNoIcons tArgs rfl rfl⟩
